import Mathlib

/-!
Verification of the subtitle-generation core of `subtitle_app.py`:
timestamp formatting (SRT and ASS forms), the SRT and ASS document
builders, and web-hex to ASS color conversion.

Representation of times: the Python code passes a float number of
seconds to `datetime.timedelta`, which stores it normalized as an exact
integer count of microseconds (split over its `days`/`seconds`/
`microseconds` fields, with `microseconds` always in `[0, 10^6)`).
We embed a time as that exact signed integer count of microseconds
(`us : ℤ`).  Every concrete value appearing in the specification
(`3661.5` s, `-0.5` s, a sub-second remainder of `999.6` ms, ...) is an
exact whole number of microseconds.  Python's `int(...)` truncation
toward zero on an exact quotient is `Int.tdiv`, Python's flooring `//`
is `Int.fdiv`, and Python's `%` (result has the divisor's sign) is
`Int.fmod`.  Python strings are Lean `String`s (lists of characters).
-/

/-- Python zero-padding format `f"{n:0w}"` restricted to a natural
number: the decimal digits of `n`, left-padded with `'0'` to total
width `w` (no padding when the digits already fill the width). -/
def zero_pad (w : ℕ) (n : ℕ) : String :=
  ⟨List.replicate (w - (toString n).length) '0'⟩ ++ toString n

/-- Python f-string `f"{n:0w}"` on an `int`: a negative value prints a
leading `-` followed by the digits of its absolute value, the sign
counting toward the total width `w`. -/
def py_fmt_int (w : ℕ) (n : ℤ) : String :=
  match n with
  | .ofNat m => zero_pad w m
  | .negSucc m => "-" ++ zero_pad (w - 1) (m + 1)

/-- Python `str(n)` on an `int` (f-string `f"{n}"` with no format spec). -/
def py_str_int (n : ℤ) : String :=
  match n with
  | .ofNat m => toString m
  | .negSucc m => "-" ++ toString (m + 1)

/-- The `microseconds` attribute of `datetime.timedelta(seconds=s)`,
for `s` embedded as `us` whole microseconds: `timedelta` normalizes so
that this attribute always lies in `[0, 10^6)`, i.e. it is the
floor-mod of the total microsecond count by `10^6`
(`subtitle_app.py`, lines 11 and 21). -/
def td_microseconds (us : ℤ) : ℤ := Int.fmod us 1000000

/-- `total_seconds = int(td.total_seconds())` (`subtitle_app.py`,
lines 12 and 22): the exact number of seconds truncated toward zero. -/
def int_total_seconds (us : ℤ) : ℤ := Int.tdiv us 1000000

/-- `millis = int(td.microseconds / 1000)` (`subtitle_app.py`,
line 16): the sub-second remainder truncated to whole milliseconds.
Exact: `td.microseconds < 10^6`, so the float quotient
`td.microseconds / 1000` is close enough to the rational quotient that
`int(...)` truncates identically. -/
def millis_field (us : ℤ) : ℤ := Int.tdiv (td_microseconds us) 1000

/-- `centis = int(td.microseconds / 10000)` (`subtitle_app.py`,
line 26): the sub-second remainder truncated to whole centiseconds. -/
def centis_field (us : ℤ) : ℤ := Int.tdiv (td_microseconds us) 10000

/-- `format_timestamp(seconds)` (`subtitle_app.py`, lines 9-17):
`hours = total_seconds // 3600`, `minutes = (total_seconds % 3600) //
60`, `secs = total_seconds % 60`, rendered as
`f"{hours:02}:{minutes:02}:{secs:02},{millis:03}"`. -/
def format_timestamp (us : ℤ) : String :=
  py_fmt_int 2 (Int.fdiv (int_total_seconds us) 3600) ++ ":"
    ++ py_fmt_int 2 (Int.fdiv (Int.fmod (int_total_seconds us) 3600) 60) ++ ":"
    ++ py_fmt_int 2 (Int.fmod (int_total_seconds us) 60) ++ ","
    ++ py_fmt_int 3 (millis_field us)

/-- `format_timestamp_ass(seconds)` (`subtitle_app.py`, lines 19-27):
same second decomposition, rendered as
`f"{hours}:{minutes:02}:{secs:02}.{centis:02}"`. -/
def format_timestamp_ass (us : ℤ) : String :=
  py_str_int (Int.fdiv (int_total_seconds us) 3600) ++ ":"
    ++ py_fmt_int 2 (Int.fdiv (Int.fmod (int_total_seconds us) 3600) 60) ++ ":"
    ++ py_fmt_int 2 (Int.fmod (int_total_seconds us) 60) ++ "."
    ++ py_fmt_int 2 (centis_field us)

/-- One row of the edited dataframe handed to the builders: start and
end times in seconds (embedded as exact microsecond counts) and the
subtitle text. -/
structure Segment where
  start : ℤ
  «end» : ℤ
  text : String

/-- `create_srt_content(df)` (`subtitle_app.py`, lines 29-37): the
dataframe is an ordered sequence of rows with the default positional
index, so `df.iterrows()` yields `(idx, row)` with `idx = 0, 1, 2, ...`
in sequence order; the loop accumulates
`srt_content += f"{idx + 1}\x0a{start} --> {end}\x0a{text}\x0a\x0a"`. -/
def create_srt_content (df : List Segment) : String :=
  df.enum.foldl (fun srt_content p =>
    srt_content ++ toString (p.1 + 1) ++ "\n"
      ++ format_timestamp p.2.start ++ " --> " ++ format_timestamp p.2.«end» ++ "\n"
      ++ p.2.text ++ "\n\n") ""

/-- Python `row['text'].replace('\x5cn', '\x5c\x5cN')` on the character
list of a string (`subtitle_app.py`, line 59): the pattern is the
single character `'\x0a'`, so `str.replace` substitutes the two
characters `\x5cN` for each newline character, character by character,
left to right. -/
def replace_nl_list (l : List Char) : List Char :=
  l.foldr (fun c acc => if c = '\n' then '\\' :: 'N' :: acc else c :: acc) []

/-- Python `row['text'].replace('\x5cn', '\x5c\x5cN')`
(`subtitle_app.py`, line 59), as a `String` transformation. -/
def py_replace_newline (s : String) : String :=
  ⟨replace_nl_list s.data⟩

/-- `create_ass_content(df, font_name, font_size, primary_color,
outline_color, outline_width, shadow_depth, alignment, margin_v)`
(`subtitle_app.py`, lines 39-62).  The source builds `header` as one
f-string (lines 41-54, a triple-quoted literal ending with a newline
after the `[Events]` `Format:` line), accumulates `events +=
f"Dialogue: 0,{start},{end},Default,,0,0,0,,{text}\x0a"` over the rows
(lines 55-60), and returns `header + events`.  The Python defaults are
`font_name="MS Gothic", font_size=40, primary_color="&H00FFFFFF",
outline_color="&H00000000", outline_width=2, shadow_depth=0,
alignment=2, margin_v=10`; here every argument is passed explicitly. -/
def create_ass_content (df : List Segment) (font_name : String) (font_size : ℤ)
    (primary_color : String) (outline_color : String) (outline_width : ℤ)
    (shadow_depth : ℤ) (alignment : ℤ) (margin_v : ℤ) : String :=
  "[Script Info]\nTitle: Streamlit Auto Subtitles\nScriptType: v4.00+\nWrapStyle: 0\nScaledBorderAndShadow: yes\nYCbCr Matrix: None\n\n[V4+ Styles]\nFormat: Name, Fontname, Fontsize, PrimaryColour, SecondaryColour, OutlineColour, BackColour, Bold, Italic, Underline, StrikeOut, ScaleX, ScaleY, Spacing, Angle, BorderStyle, Outline, Shadow, Alignment, MarginL, MarginR, MarginV, Encoding\nStyle: Default,"
    ++ font_name ++ "," ++ py_str_int font_size ++ "," ++ primary_color
    ++ ",&H000000FF," ++ outline_color ++ ",&H00000000,0,0,0,0,100,100,0,0,1,"
    ++ py_str_int outline_width ++ "," ++ py_str_int shadow_depth ++ ","
    ++ py_str_int alignment ++ ",10,10," ++ py_str_int margin_v
    ++ ",1\n\n[Events]\nFormat: Layer, Start, End, Style, Name, MarginL, MarginR, MarginV, Effect, Text\n"
    ++ df.foldl (fun events row =>
        events ++ "Dialogue: 0," ++ format_timestamp_ass row.start ++ ","
          ++ format_timestamp_ass row.«end» ++ ",Default,,0,0,0,,"
          ++ py_replace_newline row.text ++ "\n") ""

/-- `hex_to_ass_color(hex_color)` (`subtitle_app.py`, lines 64-70):
`hex_color.lstrip('#')` removes every leading `'#'`; a result whose
length is not exactly 6 yields the fallback `"&H00FFFFFF"`; otherwise
the three 2-character slices `r, g, b` are reassembled as
`f"&H00{b}{g}{r}".upper()`.  `Char.toUpper` models Python's
`str.upper()` on the ASCII characters a color string is made of. -/
def hex_to_ass_color (hex_color : String) : String :=
  let stripped := hex_color.data.dropWhile (fun c => c = '#')
  if stripped.length ≠ 6 then "&H00FFFFFF"
  else ⟨('&' :: 'H' :: '0' :: '0'
    :: ((stripped.drop 4).take 2 ++ (stripped.drop 2).take 2 ++ stripped.take 2)).map
      Char.toUpper⟩

/-! ### Specification-side definitions

These are written from the words of the specification document, to be
compared with the code-side definitions above. -/

/-- Modelled from the spec: the SRT timestamp form `HH:MM:SS,mmm` for a
non-negative input — hours/minutes/seconds from the truncated integer
second count (hours unbounded), milliseconds by truncating the
sub-second remainder to whole milliseconds. -/
def format_timestamp_spec (us : ℕ) : String :=
  zero_pad 2 (us / 1000000 / 3600) ++ ":"
    ++ zero_pad 2 (us / 1000000 % 3600 / 60) ++ ":"
    ++ zero_pad 2 (us / 1000000 % 60) ++ ","
    ++ zero_pad 3 (us % 1000000 / 1000)

/-- Modelled from the spec: the ASS timestamp form `H:MM:SS.cc` for a
non-negative input — same integer second decomposition, hours not
zero-padded, centiseconds by truncating the sub-second remainder to
hundredths. -/
def format_timestamp_ass_spec (us : ℕ) : String :=
  toString (us / 1000000 / 3600) ++ ":"
    ++ zero_pad 2 (us / 1000000 % 3600 / 60) ++ ":"
    ++ zero_pad 2 (us / 1000000 % 60) ++ "."
    ++ zero_pad 2 (us % 1000000 / 10000)

/-- Modelled from the spec: one SRT block for the segment at 0-based
position `i` — the line `i+1`, the timing line, the text, and a blank
line. -/
def srt_block (i : ℕ) (seg : Segment) : String :=
  toString (i + 1) ++ "\n"
    ++ format_timestamp seg.start ++ " --> " ++ format_timestamp seg.«end» ++ "\n"
    ++ seg.text ++ "\n\n"

/-- Modelled from the spec: concatenation of blocks in sequence order. -/
def concat_blocks : List String → String
  | [] => ""
  | b :: bs => b ++ concat_blocks bs

/-- Modelled from the spec: the fixed script-metadata lines of the ASS
header. -/
def script_info_spec : String :=
  "[Script Info]\nTitle: Streamlit Auto Subtitles\nScriptType: v4.00+\nWrapStyle: 0\nScaledBorderAndShadow: yes\nYCbCr Matrix: None\n\n"

/-- Modelled from the spec: the `[V4+ Styles]` section header with its
`Format:` column list. -/
def styles_format_spec : String :=
  "[V4+ Styles]\nFormat: Name, Fontname, Fontsize, PrimaryColour, SecondaryColour, OutlineColour, BackColour, Bold, Italic, Underline, StrikeOut, ScaleX, ScaleY, Spacing, Angle, BorderStyle, Outline, Shadow, Alignment, MarginL, MarginR, MarginV, Encoding\n"

/-- Modelled from the spec: the single `Style: Default,...` line, its
columns in the specified order — font name, font size, primary color,
fixed secondary color `&H000000FF`, outline color, fixed back color
`&H00000000`, bold/italic/underline/strikeout all `0`, scale
`100`/`100`, spacing `0`, angle `0`, border style `1`, outline width,
shadow depth, alignment, fixed margins L/R `10`, margin V, encoding
`1`. -/
def style_line_spec (font_name : String) (font_size : ℤ) (primary_color : String)
    (outline_color : String) (outline_width : ℤ) (shadow_depth : ℤ)
    (alignment : ℤ) (margin_v : ℤ) : String :=
  "Style: Default," ++ font_name ++ "," ++ py_str_int font_size ++ ","
    ++ primary_color ++ ",&H000000FF," ++ outline_color
    ++ ",&H00000000,0,0,0,0,100,100,0,0,1," ++ py_str_int outline_width ++ ","
    ++ py_str_int shadow_depth ++ "," ++ py_str_int alignment ++ ",10,10,"
    ++ py_str_int margin_v ++ ",1"

/-- Modelled from the spec: the `[Events]` section header with its
`Format:` column list. -/
def events_format_spec : String :=
  "[Events]\nFormat: Layer, Start, End, Style, Name, MarginL, MarginR, MarginV, Effect, Text\n"

/-- Modelled from the spec (as amended): the whole ASS header. -/
def ass_header_spec (font_name : String) (font_size : ℤ) (primary_color : String)
    (outline_color : String) (outline_width : ℤ) (shadow_depth : ℤ)
    (alignment : ℤ) (margin_v : ℤ) : String :=
  script_info_spec ++ styles_format_spec
    ++ style_line_spec font_name font_size primary_color outline_color
        outline_width shadow_depth alignment margin_v
    ++ "\n\n" ++ events_format_spec

/-- Modelled from the spec (as amended): one `Dialogue` line per
segment — layer `0`, ASS-formatted start and end, style `Default`,
empty name field, margin fields `0`, empty effect field, and the text
with every newline replaced by `\x5cN`. -/
def dialogue_line_spec (seg : Segment) : String :=
  "Dialogue: 0," ++ format_timestamp_ass seg.start ++ ","
    ++ format_timestamp_ass seg.«end» ++ ",Default,,0,0,0,,"
    ++ py_replace_newline seg.text ++ "\n"

/-! ### Helper lemmas -/

theorem int_tdiv_cast (m n : ℕ) : Int.tdiv (m : ℤ) (n : ℤ) = ((m / n : ℕ) : ℤ) :=
  (Int.ofNat_tdiv m n).symm

theorem int_fdiv_cast (m n : ℕ) : Int.fdiv (m : ℤ) (n : ℤ) = ((m / n : ℕ) : ℤ) :=
  (Int.ofNat_fdiv m n).symm

theorem int_fmod_cast (m n : ℕ) : Int.fmod (m : ℤ) (n : ℤ) = ((m % n : ℕ) : ℤ) :=
  (Int.ofNat_fmod m n).symm

theorem py_fmt_int_cast (w m : ℕ) : py_fmt_int w (m : ℤ) = zero_pad w m := rfl

theorem py_str_int_cast (m : ℕ) : py_str_int (m : ℤ) = toString m := rfl

theorem foldl_append_eq {α : Type} (f : α → String) :
    ∀ (l : List α) (acc : String),
      l.foldl (fun a x => a ++ f x) acc = acc ++ concat_blocks (l.map f)
  | [], acc => by simp [concat_blocks]
  | x :: xs, acc => by
    simp only [List.foldl_cons, List.map_cons, concat_blocks]
    rw [foldl_append_eq f xs (acc ++ f x), String.append_assoc]

theorem replace_nl_list_cons (c : Char) (l : List Char) :
    replace_nl_list (c :: l) =
      if c = '\n' then '\\' :: 'N' :: replace_nl_list l else c :: replace_nl_list l := rfl

theorem replace_nl_list_append (l₁ l₂ : List Char) :
    replace_nl_list (l₁ ++ l₂) = replace_nl_list l₁ ++ replace_nl_list l₂ := by
  induction l₁ with
  | nil => rfl
  | cons c l ih =>
    rw [List.cons_append, replace_nl_list_cons, replace_nl_list_cons, ih]
    by_cases hc : c = '\n' <;> simp [hc]

theorem replace_nl_list_no_newline (l : List Char) : '\n' ∉ replace_nl_list l := by
  induction l with
  | nil => simp [replace_nl_list]
  | cons c l ih =>
    rw [replace_nl_list_cons]
    by_cases hc : c = '\n'
    · rw [if_pos hc]
      simp only [List.mem_cons]
      push_neg
      exact ⟨by decide, by decide, ih⟩
    · rw [if_neg hc]
      simp only [List.mem_cons]
      push_neg
      exact ⟨fun h => hc h.symm, ih⟩

theorem replace_nl_list_id (l : List Char) (h : '\n' ∉ l) : replace_nl_list l = l := by
  induction l with
  | nil => rfl
  | cons c l ih =>
    have h1 : ¬c = '\n' := fun hc => h (by rw [hc]; exact List.mem_cons_self _ _)
    have h2 : '\n' ∉ l := fun hm => h (List.mem_cons_of_mem _ hm)
    rw [replace_nl_list_cons, if_neg h1, ih h2]

theorem hex_to_ass_color_mk (l : List Char) :
    hex_to_ass_color ⟨l⟩ =
      if (l.dropWhile (fun c => c = '#')).length ≠ 6 then "&H00FFFFFF"
      else ⟨('&' :: 'H' :: '0' :: '0'
        :: (((l.dropWhile (fun c => c = '#')).drop 4).take 2
            ++ ((l.dropWhile (fun c => c = '#')).drop 2).take 2
            ++ (l.dropWhile (fun c => c = '#')).take 2)).map Char.toUpper⟩ := rfl

/-! ### Claim theorems -/

/-- C1: for every segment sequence, `create_srt_content` returns the
concatenation, in the sequence's existing order (no re-sort by start
time), of one block per segment, the block at 0-based position `i`
being the line `i+1`, the timing line, the text, and a trailing blank
line after every block including the last.  The concrete conjunct
shows a sequence whose second segment starts earlier than its first is
rendered in the given order. -/
theorem claim_C1 :
    (∀ df : List Segment,
        create_srt_content df = concat_blocks (df.enum.map fun p => srt_block p.1 p.2))
    ∧ create_srt_content [⟨5000000, 6000000, "b"⟩, ⟨0, 1000000, "a"⟩]
        = "1\n00:00:05,000 --> 00:00:06,000\nb\n\n2\n00:00:00,000 --> 00:00:01,000\na\n\n" := by
  refine ⟨fun df => ?_, by decide⟩
  unfold create_srt_content
  rw [show (fun (srt_content : String) (p : ℕ × Segment) =>
        srt_content ++ toString (p.1 + 1) ++ "\n"
          ++ format_timestamp p.2.start ++ " --> " ++ format_timestamp p.2.«end» ++ "\n"
          ++ p.2.text ++ "\n\n")
      = fun acc p => acc ++ srt_block p.1 p.2 from by
    funext a p
    simp only [srt_block, String.append_assoc]]
  rw [foldl_append_eq]
  exact String.empty_append _

/-- C9: both builders are deterministic pure functions — identical
segment sequences (and, for ASS, identical style arguments) yield
identical output strings. -/
theorem claim_C9 :
    (∀ df₁ df₂ : List Segment, df₁ = df₂ → create_srt_content df₁ = create_srt_content df₂)
    ∧ (∀ (df₁ df₂ : List Segment) (fn₁ fn₂ : String) (fs₁ fs₂ : ℤ)
        (pc₁ pc₂ oc₁ oc₂ : String) (ow₁ ow₂ sd₁ sd₂ al₁ al₂ mv₁ mv₂ : ℤ),
        df₁ = df₂ → fn₁ = fn₂ → fs₁ = fs₂ → pc₁ = pc₂ → oc₁ = oc₂ → ow₁ = ow₂ →
        sd₁ = sd₂ → al₁ = al₂ → mv₁ = mv₂ →
        create_ass_content df₁ fn₁ fs₁ pc₁ oc₁ ow₁ sd₁ al₁ mv₁
          = create_ass_content df₂ fn₂ fs₂ pc₂ oc₂ ow₂ sd₂ al₂ mv₂) := by
  constructor
  · intro df₁ df₂ h
    rw [h]
  · intro df₁ df₂ fn₁ fn₂ fs₁ fs₂ pc₁ pc₂ oc₁ oc₂ ow₁ ow₂ sd₁ sd₂ al₁ al₂ mv₁ mv₂
      h1 h2 h3 h4 h5 h6 h7 h8 h9
    rw [h1, h2, h3, h4, h5, h6, h7, h8, h9]

/-- C9 witness: the SRT builder applied twice to the same concrete
sequence. -/
theorem claim_C9_witness :
    create_srt_content [⟨0, 1000000, "a"⟩] = create_srt_content [⟨0, 1000000, "a"⟩] :=
  claim_C9.1 [⟨0, 1000000, "a"⟩] [⟨0, 1000000, "a"⟩] rfl

set_option maxRecDepth 100000 in
/-- Decomposition of the ASS builder output into the
specification-shaped pieces: header (script metadata, styles format
line, style line, blank line, events format line) followed by the
concatenated dialogue lines. -/
theorem create_ass_content_decomp
    (df : List Segment) (fn : String) (fs : ℤ) (pc oc : String) (ow sd al mv : ℤ) :
    create_ass_content df fn fs pc oc ow sd al mv =
      ass_header_spec fn fs pc oc ow sd al mv
        ++ concat_blocks (df.map dialogue_line_spec) := by
  unfold create_ass_content
  rw [show (fun (events : String) (row : Segment) =>
        events ++ "Dialogue: 0," ++ format_timestamp_ass row.start ++ ","
          ++ format_timestamp_ass row.«end» ++ ",Default,,0,0,0,,"
          ++ py_replace_newline row.text ++ "\n")
      = fun events row => events ++ dialogue_line_spec row from by
    funext a row
    simp only [dialogue_line_spec, String.append_assoc]]
  rw [foldl_append_eq, String.empty_append]
  rw [show ("[Script Info]\nTitle: Streamlit Auto Subtitles\nScriptType: v4.00+\nWrapStyle: 0\nScaledBorderAndShadow: yes\nYCbCr Matrix: None\n\n[V4+ Styles]\nFormat: Name, Fontname, Fontsize, PrimaryColour, SecondaryColour, OutlineColour, BackColour, Bold, Italic, Underline, StrikeOut, ScaleX, ScaleY, Spacing, Angle, BorderStyle, Outline, Shadow, Alignment, MarginL, MarginR, MarginV, Encoding\nStyle: Default," : String)
      = "[Script Info]\nTitle: Streamlit Auto Subtitles\nScriptType: v4.00+\nWrapStyle: 0\nScaledBorderAndShadow: yes\nYCbCr Matrix: None\n\n"
        ++ "[V4+ Styles]\nFormat: Name, Fontname, Fontsize, PrimaryColour, SecondaryColour, OutlineColour, BackColour, Bold, Italic, Underline, StrikeOut, ScaleX, ScaleY, Spacing, Angle, BorderStyle, Outline, Shadow, Alignment, MarginL, MarginR, MarginV, Encoding\n"
        ++ "Style: Default," from rfl]
  rw [show (",1\n\n[Events]\nFormat: Layer, Start, End, Style, Name, MarginL, MarginR, MarginV, Effect, Text\n" : String)
      = ",1" ++ "\n\n"
        ++ "[Events]\nFormat: Layer, Start, End, Style, Name, MarginL, MarginR, MarginV, Effect, Text\n" from rfl]
  simp only [ass_header_spec, script_info_spec, styles_format_spec, style_line_spec,
    events_format_spec, String.append_assoc]

set_option maxRecDepth 100000 in
/-- C2 counterexample: the Dialogue line emitted for a segment has
margin fields `0,0,0`, not empty margin fields as the claim states.
For a one-segment sequence the output is the header followed by
`Dialogue: 0,0:00:00.00,0:00:01.00,Default,,0,0,0,,hi` — and it
differs from the output the claim describes, whose Dialogue line with
empty name/margin/effect fields would read
`Dialogue: 0,0:00:00.00,0:00:01.00,Default,,,,,,hi`. -/
theorem claim_C2_counterexample :
    create_ass_content [⟨0, 1000000, "hi"⟩] "F" 1 "P" "O" 1 0 2 0
        = ass_header_spec "F" 1 "P" "O" 1 0 2 0
          ++ "Dialogue: 0,0:00:00.00,0:00:01.00,Default,,0,0,0,,hi\n"
    ∧ create_ass_content [⟨0, 1000000, "hi"⟩] "F" 1 "P" "O" 1 0 2 0
        ≠ ass_header_spec "F" 1 "P" "O" 1 0 2 0
          ++ "Dialogue: 0,0:00:00.00,0:00:01.00,Default,,,,,,hi\n" := by
  have h := create_ass_content_decomp [⟨0, 1000000, "hi"⟩] "F" 1 "P" "O" 1 0 2 0
  have hdl : concat_blocks ([(⟨0, 1000000, "hi"⟩ : Segment)].map dialogue_line_spec)
      = "Dialogue: 0,0:00:00.00,0:00:01.00,Default,,0,0,0,,hi\n" := by decide
  rw [hdl] at h
  refine ⟨h, fun hbad => ?_⟩
  have h2 := congrArg String.data (h.symm.trans hbad)
  simp only [String.data_append] at h2
  exact absurd (List.append_cancel_left h2) (by decide)

set_option maxRecDepth 100000 in
/-- C2 (amended): for every segment sequence and style arguments,
`create_ass_content` returns the fixed script metadata, the
`[V4+ Styles]` format header, exactly one `Style: Default,...` line
with its columns in the specified order (font name, font size, primary
color, fixed secondary color `&H000000FF`, outline color, fixed back
color `&H00000000`, bold/italic/underline/strikeout all 0, scale
100/100, spacing 0, angle 0, border style 1, outline width, shadow
depth, alignment, fixed margins L/R 10, margin V, encoding 1), a blank
line, the `[Events]` section header, and one `Dialogue` line per
segment in sequence order — layer 0, ASS-formatted start/end, style
`Default`, empty name field, margin fields all `0`, empty effect
field. -/
theorem claim_C2_amended :
    ∀ (df : List Segment) (fn : String) (fs : ℤ) (pc oc : String) (ow sd al mv : ℤ),
      create_ass_content df fn fs pc oc ow sd al mv =
        ass_header_spec fn fs pc oc ow sd al mv
          ++ concat_blocks (df.map dialogue_line_spec) :=
  create_ass_content_decomp

/-- C4: for every non-negative input, `format_timestamp` produces
`HH:MM:SS,mmm` with hours/minutes/seconds decomposed from the
truncated integer second count, hours unbounded (not wrapped at 24),
and the milliseconds field the truncated whole-millisecond remainder;
in particular `0` s gives `00:00:00,000`, `3661.5` s gives
`01:01:01,500`, and `90000` s gives `25:00:00,000`. -/
theorem claim_C4 :
    (∀ us : ℕ, format_timestamp (us : ℤ) = format_timestamp_spec us)
    ∧ format_timestamp 0 = "00:00:00,000"
    ∧ format_timestamp 3661500000 = "01:01:01,500"
    ∧ format_timestamp 90000000000 = "25:00:00,000" := by
  refine ⟨fun us => ?_, by decide, by decide, by decide⟩
  have ht : int_total_seconds (us : ℤ) = ((us / 1000000 : ℕ) : ℤ) := int_tdiv_cast us 1000000
  have hmic : td_microseconds (us : ℤ) = ((us % 1000000 : ℕ) : ℤ) := int_fmod_cast us 1000000
  have hmil : millis_field (us : ℤ) = ((us % 1000000 / 1000 : ℕ) : ℤ) := by
    unfold millis_field
    rw [hmic]
    exact int_tdiv_cast _ 1000
  have h1 : Int.fdiv ((us / 1000000 : ℕ) : ℤ) 3600 = ((us / 1000000 / 3600 : ℕ) : ℤ) :=
    int_fdiv_cast _ 3600
  have h2a : Int.fmod ((us / 1000000 : ℕ) : ℤ) 3600 = ((us / 1000000 % 3600 : ℕ) : ℤ) :=
    int_fmod_cast _ 3600
  have h2b : Int.fdiv ((us / 1000000 % 3600 : ℕ) : ℤ) 60 = ((us / 1000000 % 3600 / 60 : ℕ) : ℤ) :=
    int_fdiv_cast _ 60
  have h3 : Int.fmod ((us / 1000000 : ℕ) : ℤ) 60 = ((us / 1000000 % 60 : ℕ) : ℤ) :=
    int_fmod_cast _ 60
  unfold format_timestamp format_timestamp_spec
  rw [ht, hmil, h2a, h1, h2b, h3, py_fmt_int_cast, py_fmt_int_cast, py_fmt_int_cast,
    py_fmt_int_cast]

/-- C5: for every non-negative input, `format_timestamp_ass` produces
`H:MM:SS.cc` with the same truncated integer second decomposition as
the SRT form, hours not zero-padded, minutes/seconds zero-padded to 2
digits, and the centiseconds field the truncated remainder in
hundredths; in particular `3661.5` s gives `1:01:01.50`. -/
theorem claim_C5 :
    (∀ us : ℕ, format_timestamp_ass (us : ℤ) = format_timestamp_ass_spec us)
    ∧ format_timestamp_ass 3661500000 = "1:01:01.50" := by
  refine ⟨fun us => ?_, by decide⟩
  have ht : int_total_seconds (us : ℤ) = ((us / 1000000 : ℕ) : ℤ) := int_tdiv_cast us 1000000
  have hmic : td_microseconds (us : ℤ) = ((us % 1000000 : ℕ) : ℤ) := int_fmod_cast us 1000000
  have hcen : centis_field (us : ℤ) = ((us % 1000000 / 10000 : ℕ) : ℤ) := by
    unfold centis_field
    rw [hmic]
    exact int_tdiv_cast _ 10000
  have h1 : Int.fdiv ((us / 1000000 : ℕ) : ℤ) 3600 = ((us / 1000000 / 3600 : ℕ) : ℤ) :=
    int_fdiv_cast _ 3600
  have h2a : Int.fmod ((us / 1000000 : ℕ) : ℤ) 3600 = ((us / 1000000 % 3600 : ℕ) : ℤ) :=
    int_fmod_cast _ 3600
  have h2b : Int.fdiv ((us / 1000000 % 3600 : ℕ) : ℤ) 60 = ((us / 1000000 % 3600 / 60 : ℕ) : ℤ) :=
    int_fdiv_cast _ 60
  have h3 : Int.fmod ((us / 1000000 : ℕ) : ℤ) 60 = ((us / 1000000 % 60 : ℕ) : ℤ) :=
    int_fmod_cast _ 60
  unfold format_timestamp_ass format_timestamp_ass_spec
  rw [ht, hcen, h2a, h1, h2b, h3, py_str_int_cast, py_fmt_int_cast, py_fmt_int_cast,
    py_fmt_int_cast]

/-- C3: for every non-negative input split as `q` whole seconds plus a
sub-second remainder of `r` microseconds, the truncated integer second
count is exactly `q` (the remainder never rolls it over to the next
second), the milliseconds field is the remainder truncated to whole
milliseconds and never exceeds 999, and the centiseconds field is the
remainder truncated to hundredths and never exceeds 99; in particular
a remainder of 999.6 ms (999600 microseconds) gives `...,999` in SRT
form and `....99` in ASS form. -/
theorem claim_C3 :
    (∀ q r : ℕ, r < 1000000 →
        int_total_seconds ((1000000 * q + r : ℕ) : ℤ) = (q : ℤ)
        ∧ millis_field ((1000000 * q + r : ℕ) : ℤ) = ((r / 1000 : ℕ) : ℤ)
        ∧ millis_field ((1000000 * q + r : ℕ) : ℤ) ≤ 999
        ∧ centis_field ((1000000 * q + r : ℕ) : ℤ) = ((r / 10000 : ℕ) : ℤ)
        ∧ centis_field ((1000000 * q + r : ℕ) : ℤ) ≤ 99)
    ∧ format_timestamp 999600 = "00:00:00,999"
    ∧ format_timestamp_ass 999600 = "0:00:00.99" := by
  refine ⟨fun q r hr => ?_, by decide, by decide⟩
  have ht : int_total_seconds ((1000000 * q + r : ℕ) : ℤ)
      = (((1000000 * q + r) / 1000000 : ℕ) : ℤ) := int_tdiv_cast _ 1000000
  have hmic : td_microseconds ((1000000 * q + r : ℕ) : ℤ)
      = (((1000000 * q + r) % 1000000 : ℕ) : ℤ) := int_fmod_cast _ 1000000
  have hmil : millis_field ((1000000 * q + r : ℕ) : ℤ)
      = (((1000000 * q + r) % 1000000 / 1000 : ℕ) : ℤ) := by
    unfold millis_field
    rw [hmic]
    exact int_tdiv_cast _ 1000
  have hcen : centis_field ((1000000 * q + r : ℕ) : ℤ)
      = (((1000000 * q + r) % 1000000 / 10000 : ℕ) : ℤ) := by
    unfold centis_field
    rw [hmic]
    exact int_tdiv_cast _ 10000
  refine ⟨?_, ?_, ?_, ?_, ?_⟩
  · rw [ht]; omega
  · rw [hmil]; omega
  · rw [hmil]; omega
  · rw [hcen]; omega
  · rw [hcen]; omega

/-- C3 witness: the general statement instantiated at `q = 0`,
`r = 999600` microseconds (a 999.6 ms remainder): the milliseconds
field stays at most 999. -/
theorem claim_C3_witness :
    millis_field ((1000000 * 0 + 999600 : ℕ) : ℤ) ≤ 999 :=
  (claim_C3.1 0 999600 (by decide)).2.2.1

theorem int_tdiv_negSucc (m n : ℕ) :
    Int.tdiv (Int.negSucc m) (n : ℤ) = -(((m + 1) / n : ℕ) : ℤ) := rfl

theorem int_fmod_negSucc (m n : ℕ) :
    Int.fmod (Int.negSucc m) (n : ℤ) = Int.subNatNat n (m % n + 1) := rfl

/-- C10: `format_timestamp` totally accepts negative input; for every
input strictly between -1 s and 0 s it returns `00:00:00,mmm` where
`mmm` is the truncated whole-millisecond remainder of `s + 1` (because
`timedelta` normalizes the microsecond field to `[0, 10^6)`); in
particular `-0.5` s gives `00:00:00,500`. -/
theorem claim_C10 :
    (∀ us : ℤ, -1000000 < us → us < 0 →
        format_timestamp us = "00:00:00," ++ zero_pad 3 ((us + 1000000).toNat / 1000))
    ∧ format_timestamp (-500000) = "00:00:00,500" := by
  refine ⟨fun us hlow hneg => ?_, by decide⟩
  cases us with
  | ofNat m => exact absurd hneg (Int.not_lt.mpr (Int.ofNat_nonneg m))
  | negSucc k =>
    have hk : k + 1 < 1000000 := by
      rw [Int.negSucc_eq] at hlow
      omega
    have ht : int_total_seconds (Int.negSucc k) = 0 := by
      have h0 : int_total_seconds (Int.negSucc k) = -(((k + 1) / 1000000 : ℕ) : ℤ) :=
        int_tdiv_negSucc k 1000000
      rw [h0, Nat.div_eq_of_lt hk]
      rfl
    have hmic : td_microseconds (Int.negSucc k) = ((1000000 - (k + 1) : ℕ) : ℤ) := by
      have h0 : td_microseconds (Int.negSucc k) = Int.subNatNat 1000000 (k % 1000000 + 1) :=
        int_fmod_negSucc k 1000000
      rw [h0, Nat.mod_eq_of_lt (by omega)]
      exact Int.subNatNat_of_le (by omega)
    have hmil : millis_field (Int.negSucc k) = (((1000000 - (k + 1)) / 1000 : ℕ) : ℤ) := by
      unfold millis_field
      rw [hmic]
      exact int_tdiv_cast _ 1000
    have harg : (Int.negSucc k + 1000000).toNat = 1000000 - (k + 1) := by
      rw [Int.negSucc_eq]
      omega
    unfold format_timestamp
    rw [ht, hmil, harg, py_fmt_int_cast]
    rfl

/-- C10 witness: the general statement instantiated one microsecond
below zero: `-1` microsecond formats as `00:00:00,999`. -/
theorem claim_C10_witness :
    format_timestamp (-1) = "00:00:00," ++ zero_pad 3 (((-1 : ℤ) + 1000000).toNat / 1000) :=
  claim_C10.1 (-1) (by decide) (by decide)

/-- C6 counterexample: `lstrip('#')` strips every leading `'#'`, not
just one.  For the input `"##abcde"`, stripping one optional leading
`'#'` leaves the 6 characters `#abcde`, so the claim predicts the
token `&H00` + `de` + `bc` + `#a` uppercased, i.e. `"&H00DEBC#A"`; the
code instead strips both `'#'`, is left with 5 characters, and returns
the fallback `"&H00FFFFFF"`. -/
theorem claim_C6_counterexample :
    hex_to_ass_color "##abcde" = "&H00FFFFFF"
    ∧ hex_to_ass_color "##abcde" ≠ "&H00DEBC#A" :=
  ⟨by decide, by decide⟩

/-- C6 (amended): for every input string that, after stripping all
leading `'#'` characters, is exactly 6 characters
`r1 r2 g1 g2 b1 b2`, `hex_to_ass_color` returns `&H00` followed by
`b1 b2 g1 g2 r1 r2` in uppercase (alpha fixed at 00, channels
reordered RGB to BGR, no validation that the characters are hex
digits); in particular `"#FF0000"` gives `"&H000000FF"` and
`"#FFFFFF"` gives `"&H00FFFFFF"`. -/
theorem claim_C6_amended :
    (∀ (k : ℕ) (r1 r2 g1 g2 b1 b2 : Char), r1 ≠ '#' →
        hex_to_ass_color ⟨List.replicate k '#' ++ [r1, r2, g1, g2, b1, b2]⟩
          = ⟨['&', 'H', '0', '0', b1.toUpper, b2.toUpper, g1.toUpper, g2.toUpper,
              r1.toUpper, r2.toUpper]⟩)
    ∧ hex_to_ass_color "#FF0000" = "&H000000FF"
    ∧ hex_to_ass_color "#FFFFFF" = "&H00FFFFFF" := by
  refine ⟨fun k r1 r2 g1 g2 b1 b2 h => ?_, by decide, by decide⟩
  have hdrop : (List.replicate k '#' ++ [r1, r2, g1, g2, b1, b2]).dropWhile (fun c => c = '#')
      = [r1, r2, g1, g2, b1, b2] := by
    induction k with
    | zero => simp [List.dropWhile_cons, h]
    | succ n ih => simpa [List.replicate_succ, List.dropWhile_cons] using ih
  rw [hex_to_ass_color_mk, hdrop]
  rfl

/-- C6 witness: the general statement instantiated at one leading `#`
and the characters of `FF0000`. -/
theorem claim_C6_witness :
    hex_to_ass_color ⟨List.replicate 1 '#' ++ ['F', 'F', '0', '0', '0', '0']⟩
      = ⟨['&', 'H', '0', '0', Char.toUpper '0', Char.toUpper '0', Char.toUpper '0',
          Char.toUpper '0', Char.toUpper 'F', Char.toUpper 'F']⟩ :=
  claim_C6_amended.1 1 'F' 'F' '0' '0' '0' '0' (by decide)

/-- C7 counterexample: for the input `"##123456"`, stripping one
optional leading `'#'` leaves the 7 characters `#123456`, so the claim
predicts the fallback `"&H00FFFFFF"`; the code instead strips both
`'#'`, is left with exactly 6 characters, and converts them to
`"&H00563412"`. -/
theorem claim_C7_counterexample :
    hex_to_ass_color "##123456" = "&H00563412"
    ∧ hex_to_ass_color "##123456" ≠ "&H00FFFFFF" :=
  ⟨by decide, by decide⟩

/-- C7 (amended): for every input string whose length after stripping
all leading `'#'` characters is not exactly 6, `hex_to_ass_color`
returns the fixed fallback `"&H00FFFFFF"` (opaque white) and raises no
error; in particular `"#12"` gives `"&H00FFFFFF"`. -/
theorem claim_C7_amended :
    (∀ s : String, (s.data.dropWhile (fun c => c = '#')).length ≠ 6 →
        hex_to_ass_color s = "&H00FFFFFF")
    ∧ hex_to_ass_color "#12" = "&H00FFFFFF" := by
  refine ⟨fun s h => ?_, by decide⟩
  obtain ⟨l⟩ := s
  rw [hex_to_ass_color_mk, if_pos h]

/-- C7 witness: the general statement instantiated at a 7-digit
input. -/
theorem claim_C7_witness : hex_to_ass_color "#1234567" = "&H00FFFFFF" :=
  claim_C7_amended.1 "#1234567" (by decide)

set_option maxRecDepth 100000 in
/-- C8: in ASS output the segment text has every embedded newline
replaced by the literal two-character token `\x5cN`, nothing else is
escaped, and the replaced text contains zero raw newline characters;
concretely, a one-segment sequence with text `a`-newline-`b` yields a
Dialogue line carrying `a\x5cNb`. -/
theorem claim_C8 :
    (∀ a b : String,
        py_replace_newline (a ++ "\n" ++ b)
          = py_replace_newline a ++ "\\N" ++ py_replace_newline b)
    ∧ (∀ s : String, '\n' ∉ (py_replace_newline s).data)
    ∧ (∀ s : String, '\n' ∉ s.data → py_replace_newline s = s)
    ∧ create_ass_content [⟨0, 1000000, "a\nb"⟩] "F" 1 "P" "O" 1 0 2 0
        = ass_header_spec "F" 1 "P" "O" 1 0 2 0
          ++ "Dialogue: 0,0:00:00.00,0:00:01.00,Default,,0,0,0,,a\\Nb\n" := by
  refine ⟨fun a b => ?_, fun s => replace_nl_list_no_newline s.data,
    fun s h => String.ext (replace_nl_list_id s.data h), ?_⟩
  · apply String.ext
    show replace_nl_list ((a ++ "\n" ++ b).data) = _
    rw [String.data_append, String.data_append, replace_nl_list_append,
      replace_nl_list_append]
    rfl
  · have h := create_ass_content_decomp [⟨0, 1000000, "a\nb"⟩] "F" 1 "P" "O" 1 0 2 0
    have hdl : concat_blocks ([(⟨0, 1000000, "a\nb"⟩ : Segment)].map dialogue_line_spec)
        = "Dialogue: 0,0:00:00.00,0:00:01.00,Default,,0,0,0,,a\\Nb\n" := by decide
    rw [hdl] at h
    exact h

/-- C8 witness: a newline-free text passes through the replacement
unchanged (no other escaping), applied at the concrete text `ab`. -/
theorem claim_C8_witness : py_replace_newline "ab" = "ab" :=
  claim_C8.2.2.1 "ab" (by decide)
